import Mathlib

/-!
Verification of the linkedin-scraper Go package: a shallow embedding of its
query encoder (buildGraphQLURL and the SearchProfiles argument construction),
its normalized-graph resolver (parseProfileFromAPIResponse and the per-kind
collection parsers from profile.go), and its FlexibleText JSON decoding
(models.go), together with theorems checking the specified properties.

Strings are modelled as Lean String, Go int as Int, Go pointers as Option,
Go (value, error) returns as Except or Option. JSON input that Go receives as
raw bytes is modelled post-lexing as an inductive JsonVal; the byte-level
json.Unmarshal machinery of encoding/json is embedded only where the package
customizes it (FlexibleText.UnmarshalJSON).
-/

/-! ### Generic string helpers mirroring the Go standard library -/

/-- Membership of `needle` as a contiguous run inside a character list.
Mirrors the scan of Go strings.Contains / strings.Index. -/
def listInfixB (needle : List Char) : List Char → Bool
  | [] => needle.isEmpty
  | c :: rest => needle.isPrefixOf (c :: rest) || listInfixB needle rest

/-- Go strings.Contains(s, sub): true when sub occurs contiguously in s. -/
def strContains (s sub : String) : Bool := listInfixB sub.data s.data

/-- Characters trimmed by Go strings.TrimSpace (the unicode.IsSpace set:
tab..carriage-return, space, NEL, NBSP, and the Unicode Zs/Zl/Zp code points). -/
def goIsSpace (c : Char) : Bool :=
  let n := c.toNat
  (9 ≤ n && n ≤ 13) || n = 32 || n = 0x85 || n = 0xA0 || n = 0x1680 ||
    (0x2000 ≤ n && n ≤ 0x200A) || n = 0x2028 || n = 0x2029 || n = 0x202F ||
    n = 0x205F || n = 0x3000

/-- Go strings.TrimSpace: drop leading and trailing whitespace. -/
def goTrimSpace (s : String) : String :=
  String.mk (((s.data.dropWhile goIsSpace).reverse.dropWhile goIsSpace).reverse)

/-- UTF-8 encoding of one character, as Go ranges over the bytes of a string. -/
def utf8Bytes (c : Char) : List Nat :=
  let n := c.toNat
  if n < 0x80 then [n]
  else if n < 0x800 then [0xC0 ||| (n >>> 6), 0x80 ||| (n &&& 0x3F)]
  else if n < 0x10000 then
    [0xE0 ||| (n >>> 12), 0x80 ||| ((n >>> 6) &&& 0x3F), 0x80 ||| (n &&& 0x3F)]
  else
    [0xF0 ||| (n >>> 18), 0x80 ||| ((n >>> 12) &&& 0x3F),
      0x80 ||| ((n >>> 6) &&& 0x3F), 0x80 ||| (n &&& 0x3F)]

/-- Upper-case hexadecimal digit, as used by Go net/url percent-escaping. -/
def hexUpper (n : Nat) : Char :=
  if n < 10 then Char.ofNat (48 + n) else Char.ofNat (55 + n)

/-- Byte kept unescaped by Go url.QueryEscape: ASCII alphanumerics and -_.~ . -/
def queryUnreserved (b : Nat) : Bool :=
  (48 ≤ b && b ≤ 57) || (65 ≤ b && b ≤ 90) || (97 ≤ b && b ≤ 122) ||
    b = 45 || b = 95 || b = 46 || b = 126

/-- Go url.QueryEscape on a single byte: space becomes a plus sign,
unreserved bytes stay, every other byte becomes %XX. -/
def queryEscapeByte (b : Nat) : List Char :=
  if b = 32 then ['+']
  else if queryUnreserved b then [Char.ofNat b]
  else ['%', hexUpper (b / 16), hexUpper (b % 16)]

/-- Go url.QueryEscape over a whole string (byte by byte over its UTF-8 form). -/
def queryEscape (s : String) : String :=
  String.mk ((s.data.flatMap utf8Bytes).flatMap queryEscapeByte)

/-! ### JSON values and the FlexibleText decoder (models.go) -/

/-- A decoded JSON value. The numeric payload is kept as its source text since
no code under test inspects it. -/
inductive JsonVal where
  | null
  | bool (b : Bool)
  | num (lit : String)
  | str (s : String)
  | arr (elems : List JsonVal)
  | obj (fields : List (String × JsonVal))

/-- Sequential decode of an object into Go struct{ Text string `json:"text"` }:
encoding/json walks the members in order, assigning each "text" value to the
field (a later duplicate overwrites an earlier one), erroring on a value that
is neither a string nor null, and ignoring unknown keys. -/
def textObjFold : List (String × JsonVal) → String → Option String
  | [], acc => some acc
  | (k, v) :: rest, acc =>
    if k = "text" then
      match v with
      | .str s => textObjFold rest s
      | .null => textObjFold rest acc
      | _ => none
    else textObjFold rest acc

/-- Go json.Unmarshal of a value into struct{ Text string }: none is the error
case; null is a no-op leaving the zero value, an object is decoded member by
member, and any other shape is a type error. -/
def unmarshalTextObj : JsonVal → Option String
  | .null => some ""
  | .obj fields => textObjFold fields ""
  | _ => none

/-- Go json.Unmarshal of a value into a plain string: a JSON string decodes to
itself, null is a no-op leaving the zero value, anything else is a type error. -/
def unmarshalGoString : JsonVal → Option String
  | .str s => some s
  | .null => some ""
  | _ => none

/-- Steps 2 and 3 of FlexibleText.UnmarshalJSON: fall back to a bare string,
then to the literal null check (the latter is unreachable for canonical input
because null already succeeds as a no-op string decode). -/
def flexibleTextFallback (data : JsonVal) : Option String :=
  match unmarshalGoString data with
  | some s => some s
  | none =>
    match data with
    | .null => some ""
    | _ => none

/-- FlexibleText.UnmarshalJSON (models.go): try the {text: ...} wrapper first
and keep its text only when non-empty, otherwise fall back; none models the
"cannot unmarshal ... into FlexibleText" error return. -/
def flexibleTextUnmarshal (data : JsonVal) : Option String :=
  match unmarshalTextObj data with
  | some t => if t ≠ "" then some t else flexibleTextFallback data
  | none => flexibleTextFallback data

/-! ### Wire and domain data model (models.go)

Field defaults are the Go zero values that json.Unmarshal leaves when a field
is absent from the payload. Only the fields the resolver reads are carried. -/

/-- Date (models.go): a LinkedIn date with optional year, month, day. -/
structure GoDate where
  year : Int := 0
  month : Int := 0
  day : Int := 0
deriving DecidableEq

/-- DateRange (models.go). The Go field End is a Lean keyword, hence stop. -/
structure GoDateRange where
  start : Option GoDate := none
  stop : Option GoDate := none
deriving DecidableEq

/-- Experience (models.go): one resolved position entry. -/
structure Experience where
  entityURN : String := ""
  companyName : String := ""
  companyURN : String := ""
  title : String := ""
  description : String := ""
  dateRange : Option GoDateRange := none
  locationName : String := ""
deriving DecidableEq

/-- Education (models.go): one resolved education entry. -/
structure Education where
  entityURN : String := ""
  schoolName : String := ""
  schoolURN : String := ""
  degreeName : String := ""
  fieldOfStudy : String := ""
  dateRange : Option GoDateRange := none
  description : String := ""
  activities : String := ""
deriving DecidableEq

/-- Skill (models.go): one resolved skill entry. -/
structure Skill where
  entityURN : String := ""
  name : String := ""
  endorsementCount : Int := 0
  endorsedByViewer : Bool := false
deriving DecidableEq

/-- ProfileLocation (models.go). -/
structure ProfileLocation where
  countryCode : String := ""
  postalCode : String := ""
  preferredGeoPlace : String := ""
deriving DecidableEq

/-- ProfilePicture (models.go). -/
structure ProfilePicture where
  displayImageUrn : String := ""
  photoFilterPicture : String := ""
  rootURL : String := ""
  a11yText : String := ""
deriving DecidableEq

/-- ConnectionInfo (models.go). -/
structure ConnectionInfo where
  connectionCount : Int := 0
  followerCount : Int := 0
  followingCount : Int := 0
  following : Bool := false
deriving DecidableEq

/-- GenericIncludedElement (models.go): one dynamically-typed entity of the
flat included array, discriminated by the $type tag. The FlexibleText field
title is carried post-decode as Option String (Go *FlexibleText). -/
structure GenericIncludedElement where
  type : String := ""
  entityUrn : String := ""
  trackingUrn : String := ""
  title : Option String := none
  navigationURL : String := ""
  publicIdentifier : String := ""
  firstName : String := ""
  lastName : String := ""
  headline : String := ""
  companyName : String := ""
  companyURN : String := ""
  description : String := ""
  dateRange : Option GoDateRange := none
  locationName : String := ""
  schoolName : String := ""
  schoolURN : String := ""
  degreeName : String := ""
  fieldOfStudy : String := ""
  activities : String := ""
  name : String := ""
  endorsementCount : Int := 0
  endorsedByViewer : Bool := false
deriving DecidableEq

/-- ProfileAPIResponse (models.go): the resolver reads only the included
array; the data and meta sections are never consulted by profile.go. -/
structure ProfileAPIResponse where
  included : List GenericIncludedElement := []
deriving DecidableEq

/-- LinkedInProfile (models.go): the resolved domain entity. -/
structure LinkedInProfile where
  publicIdentifier : String := ""
  urn : String := ""
  fullName : String := ""
  headline : String := ""
  location : String := ""
  profileURL : String := ""
  firstName : String := ""
  lastName : String := ""
  summary : String := ""
  locationDetails : Option ProfileLocation := none
  experience : List Experience := []
  education : List Education := []
  skills : List Skill := []
  profilePicture : Option ProfilePicture := none
  connectionInfo : Option ConnectionInfo := none
  isCreator : Bool := false
  isMemorialized : Bool := false
  tempStatus : String := ""
  tempStatusEmoji : String := ""
deriving DecidableEq

instance : Inhabited LinkedInProfile := ⟨{}⟩

/-- Errors returned by the resolve path: the fmt.Errorf values of profile.go,
identified by which return site produced them. -/
inductive ResolveError where
  | profileNotFound (publicIdentifier : String)
  | publicIdentifierRequired
  | publicIdentifierNotExtracted
deriving DecidableEq

/-! ### Entity type discriminators

The EntityType* constant declarations of the repository are not under src/
(profile.go uses them undeclared there); their values are taken from the
string literals that the parallel draft of the same functions in src spells
out inline for the identical checks. -/

def EntityTypeProfile : String := "com.linkedin.voyager.dash.identity.profile.Profile"

def EntityTypePosition : String := "com.linkedin.voyager.dash.identity.profile.Position"

def EntityTypeEducation : String := "com.linkedin.voyager.dash.identity.profile.Education"

def EntityTypeEndorsedSkill : String := "Skill"

def EntityTypeConnection : String := "Connection"

def EntityTypeFollowing : String := "Following"

/-! ### The normalized graph resolver (profile.go) -/

/-- Conversion of one Position wire entity into an Experience entry, as the
loop body of parseExperienceData builds it (the nil checks on Title and
DateRange become Option matches; the Date copy is field for field). -/
def experienceOfElement (item : GenericIncludedElement) : Experience :=
  { entityURN := item.entityUrn
    companyName := item.companyName
    description := item.description
    locationName := item.locationName
    companyURN := item.companyURN
    title :=
      match item.title with
      | some t => t
      | none => ""
    dateRange :=
      match item.dateRange with
      | some dr =>
        some { start := dr.start.map (fun d => { year := d.year, month := d.month, day := d.day })
               stop := dr.stop.map (fun d => { year := d.year, month := d.month, day := d.day }) }
      | none => none }

/-- parseExperienceData (profile.go): append one Experience per entity whose
discriminator equals the Position type, in included-array order; the
profileURN argument is accepted but never consulted. -/
def parseExperienceData (apiResponse : ProfileAPIResponse) (profileURN : String) :
    List Experience :=
  apiResponse.included.foldl
    (fun acc item =>
      if item.type == EntityTypePosition then acc ++ [experienceOfElement item] else acc)
    []

/-- Conversion of one Education wire entity into an Education entry,
mirroring the loop body of parseEducationData. -/
def educationOfElement (item : GenericIncludedElement) : Education :=
  { entityURN := item.entityUrn
    schoolName := item.schoolName
    schoolURN := item.schoolURN
    degreeName := item.degreeName
    fieldOfStudy := item.fieldOfStudy
    description := item.description
    activities := item.activities
    dateRange :=
      match item.dateRange with
      | some dr =>
        some { start := dr.start.map (fun d => { year := d.year, month := d.month, day := d.day })
               stop := dr.stop.map (fun d => { year := d.year, month := d.month, day := d.day }) }
      | none => none }

/-- parseEducationData (profile.go): one Education entry per entity of the
Education type, in included-array order; profileURN is never consulted. -/
def parseEducationData (apiResponse : ProfileAPIResponse) (profileURN : String) :
    List Education :=
  apiResponse.included.foldl
    (fun acc item =>
      if item.type == EntityTypeEducation then acc ++ [educationOfElement item] else acc)
    []

/-- Conversion of one skill wire entity, mirroring the loop body of
parseSkillsData. -/
def skillOfElement (item : GenericIncludedElement) : Skill :=
  { entityURN := item.entityUrn
    name := item.name
    endorsementCount := item.endorsementCount
    endorsedByViewer := item.endorsedByViewer }

/-- parseSkillsData (profile.go): one Skill per entity whose discriminator
contains the endorsed-skill tag (strings.Contains, since the type can vary),
in included-array order; profileURN is never consulted. -/
def parseSkillsData (apiResponse : ProfileAPIResponse) (profileURN : String) : List Skill :=
  apiResponse.included.foldl
    (fun acc item =>
      if strContains item.type EntityTypeEndorsedSkill then acc ++ [skillOfElement item]
      else acc)
    []

/-- extractCountryCode (profile.go): placeholder in the source, always "". -/
def extractCountryCode (item : GenericIncludedElement) : String := ""

/-- parseLocationData (profile.go): the first Profile entity carrying the
anchor URN yields a ProfileLocation via extractCountryCode; otherwise nil. -/
def parseLocationData (apiResponse : ProfileAPIResponse) (profileURN : String) :
    Option ProfileLocation :=
  (apiResponse.included.find?
      (fun item => item.type == EntityTypeProfile && item.entityUrn == profileURN)).map
    (fun item => { countryCode := extractCountryCode item })

/-- parseConnectionCount (profile.go): returns a "not implemented" error in
the source, modelled as none. -/
def parseConnectionCount (item : GenericIncludedElement) : Option Int := none

/-- parseFollowerCount (profile.go): returns a "not implemented" error in the
source, modelled as none. -/
def parseFollowerCount (item : GenericIncludedElement) : Option Int := none

/-- parseConnectionData (profile.go): starts from a zero ConnectionInfo and
walks the included array, updating counts only when the count parsers succeed
(they never do in the source); the pointer result is always non-nil. -/
def parseConnectionData (apiResponse : ProfileAPIResponse) (profileURN : String) :
    Option ConnectionInfo :=
  some (apiResponse.included.foldl
    (fun ci item =>
      let ci :=
        if strContains item.type EntityTypeConnection then
          match parseConnectionCount item with
          | some count => { ci with connectionCount := count }
          | none => ci
        else ci
      if strContains item.type EntityTypeFollowing then
        match parseFollowerCount item with
        | some count => { ci with followerCount := count }
        | none => ci
      else ci)
    {})

/-- extractProfileImageURN (profile.go): placeholder in the source, always "". -/
def extractProfileImageURN (item : GenericIncludedElement) : String := ""

/-- parseProfilePictureData (profile.go): the first Profile entity carrying
the anchor URN yields a ProfilePicture; otherwise nil. -/
def parseProfilePictureData (apiResponse : ProfileAPIResponse) (profileURN : String) :
    Option ProfilePicture :=
  (apiResponse.included.find?
      (fun item => item.type == EntityTypeProfile && item.entityUrn == profileURN)).map
    (fun item =>
      { displayImageUrn := extractProfileImageURN item
        a11yText := item.firstName ++ " " ++ item.lastName })

/-- extractFieldFromRawJSON (profile.go): placeholder in the source, always
(nil, false). -/
def extractFieldFromRawJSON (item : GenericIncludedElement) (fieldName : String) :
    Option JsonVal := none

/-- parseSimpleProfileFields (profile.go): copies creator, memorialized and
temp-status fields from the raw JSON of the anchor; each lookup goes through
extractFieldFromRawJSON, so with the source placeholder none of them fires. -/
def parseSimpleProfileFields (profile : LinkedInProfile) (apiResponse : ProfileAPIResponse)
    (profileEntity : GenericIncludedElement) : LinkedInProfile :=
  let profile :=
    match extractFieldFromRawJSON profileEntity "creator" with
    | some (.bool b) => { profile with isCreator := b }
    | _ => profile
  let profile :=
    match extractFieldFromRawJSON profileEntity "memorialized" with
    | some (.bool b) => { profile with isMemorialized := b }
    | _ => profile
  let profile :=
    match extractFieldFromRawJSON profileEntity "tempStatus" with
    | some (.str s) => { profile with tempStatus := s }
    | _ => profile
  match extractFieldFromRawJSON profileEntity "tempStatusEmoji" with
  | some (.str s) => { profile with tempStatusEmoji := s }
  | _ => profile

/-- Anchor lookup of parseProfileFromAPIResponse: the first included entity
whose discriminator is the Profile type and whose publicIdentifier equals the
requested one. -/
def findAnchor (apiResponse : ProfileAPIResponse) (publicIdentifier : String) :
    Option GenericIncludedElement :=
  apiResponse.included.find?
    (fun item => item.type == EntityTypeProfile && item.publicIdentifier == publicIdentifier)

/-- Body of parseProfileFromAPIResponse after the anchor is found: scalar
projection, the unconditional FullName = TrimSpace(first + " " + last), the
collection parsers keyed on the anchor URN, and parseSimpleProfileFields. -/
def profileOfAnchor (apiResponse : ProfileAPIResponse) (publicIdentifier : String)
    (profileEntity : GenericIncludedElement) : LinkedInProfile :=
  parseSimpleProfileFields
    { publicIdentifier := profileEntity.publicIdentifier
      urn := profileEntity.entityUrn
      firstName := profileEntity.firstName
      lastName := profileEntity.lastName
      headline := profileEntity.headline
      profileURL := "https://www.linkedin.com/in/" ++ publicIdentifier ++ "/"
      fullName := goTrimSpace (profileEntity.firstName ++ " " ++ profileEntity.lastName)
      experience := parseExperienceData apiResponse profileEntity.entityUrn
      education := parseEducationData apiResponse profileEntity.entityUrn
      skills := parseSkillsData apiResponse profileEntity.entityUrn
      locationDetails := parseLocationData apiResponse profileEntity.entityUrn
      connectionInfo := parseConnectionData apiResponse profileEntity.entityUrn
      profilePicture := parseProfilePictureData apiResponse profileEntity.entityUrn }
    apiResponse profileEntity

/-- parseProfileFromAPIResponse (profile.go): locate the anchor entity or
fail with the profile-not-found error, then assemble the domain entity. -/
def parseProfileFromAPIResponse (apiResponse : ProfileAPIResponse)
    (publicIdentifier : String) : Except ResolveError LinkedInProfile :=
  match findAnchor apiResponse publicIdentifier with
  | none => .error (.profileNotFound publicIdentifier)
  | some profileEntity => .ok (profileOfAnchor apiResponse publicIdentifier profileEntity)

/-- sanitizeTextString (profile.go): drop NUL characters, then trim. -/
def sanitizeTextString (s : String) : String :=
  goTrimSpace (String.mk (s.data.filter (fun c => c != '\x00')))

/-- validateProfileData (profile.go): fatal when the primary identifier is
empty; otherwise sanitize the display strings in place (the Go nil-pointer
guard has no counterpart on a value argument). -/
def validateProfileData (profile : LinkedInProfile) : Except ResolveError LinkedInProfile :=
  if profile.publicIdentifier = "" then .error .publicIdentifierRequired
  else
    .ok { profile with
          firstName := sanitizeTextString profile.firstName
          lastName := sanitizeTextString profile.lastName
          fullName := sanitizeTextString profile.fullName
          headline := sanitizeTextString profile.headline
          summary := sanitizeTextString profile.summary }

/-- convertAPIResponseToLinkedInProfile (profile.go): parse then validate. -/
def convertAPIResponseToLinkedInProfile (apiResponse : ProfileAPIResponse)
    (publicIdentifier : String) : Except ResolveError LinkedInProfile := do
  let profile ← parseProfileFromAPIResponse apiResponse publicIdentifier
  validateProfileData profile

/-- extractPublicIdentifierFromResponse (profile.go): the identifier of the
first Profile entity that carries a non-empty one, else "". -/
def extractPublicIdentifierFromResponse (apiResponse : ProfileAPIResponse) : String :=
  match apiResponse.included.find?
      (fun item => item.type == EntityTypeProfile && item.publicIdentifier != "") with
  | some item => item.publicIdentifier
  | none => ""

/-- ParseFromJSON (profile.go), downstream of the leaf json.Unmarshal of the
raw bytes: extract the identifier, fail when none is found, then parse and
validate (errors are wrapped with context strings in Go; the wrapping adds no
information the model keeps). -/
def ParseFromJSON (apiResponse : ProfileAPIResponse) : Except ResolveError LinkedInProfile :=
  let publicIdentifier := extractPublicIdentifierFromResponse apiResponse
  if publicIdentifier = "" then .error .publicIdentifierNotExtracted
  else do
    let profile ← parseProfileFromAPIResponse apiResponse publicIdentifier
    validateProfileData profile

/-! ### The query encoder (models.go argument structs, client.go builder) -/

/-- SearchQueryParameters (models.go): one named filter list. -/
structure SearchQueryParameters where
  key : String
  value : List String
deriving DecidableEq

/-- SearchQuerySubQuery (models.go): the query object of the variables. -/
structure SearchQuerySubQuery where
  keywords : String
  flagshipSearchIntent : String
  queryParameters : List SearchQueryParameters
  includeFiltersInResponse : Bool
deriving DecidableEq

/-- SearchVariables (models.go): the variables object of the request URL. -/
structure SearchVariables where
  start : Int
  count : Int
  origin : String
  query : SearchQuerySubQuery
deriving DecidableEq

/-- stringSliceToString (client.go): strings.Join. -/
def stringSliceToString (slice : List String) (sep : String) : String :=
  String.intercalate sep slice

/-- Go fmt %t for a bool. -/
def goBoolString (b : Bool) : String := if b then "true" else "false"

/-- The (key:...,value:List(...)) fragment built for one query parameter in
buildGraphQLURL (client.go). -/
def queryParamFragment (p : SearchQueryParameters) : String :=
  "(key:" ++ p.key ++ ",value:" ++ ("List(" ++ stringSliceToString p.value "," ++ ")") ++ ")"

/-- The manually concatenated variables string of buildGraphQLURL
(client.go): queryParameters are wrapped in List(...), keywords go through
url.QueryEscape, everything else is spliced bare per the cURL grammar. -/
def buildVariablesString (vars : SearchVariables) : String :=
  let queryParametersString :=
    "List(" ++ stringSliceToString (vars.query.queryParameters.map queryParamFragment) "," ++ ")"
  "(start:" ++ toString vars.start ++
    ",count:" ++ toString vars.count ++
    ",origin:" ++ vars.origin ++
    ",query:(keywords:" ++ queryEscape vars.query.keywords ++
    ",flagshipSearchIntent:" ++ vars.query.flagshipSearchIntent ++
    ",queryParameters:" ++ queryParametersString ++
    ",includeFiltersInResponse:" ++ goBoolString vars.query.includeFiltersInResponse ++
    "))"

/-- url.Values.Encode over the two parameters buildGraphQLURL sets (queryId
and includeWebMetadata): keys in sorted order, values query-escaped. -/
def encodedBaseQuery (queryID : String) : String :=
  "includeWebMetadata=true&queryId=" ++ queryEscape queryID

/-- buildGraphQLURL (client.go): encode the base query parameters normally,
then append the raw variables string so its parentheses stay literal. The Go
url.Parse error branch is unreachable for the constant base URL, so the model
is total. -/
def buildGraphQLURL (baseURL queryID : String) (vars : SearchVariables) : String :=
  baseURL ++ "?" ++ encodedBaseQuery queryID ++ "&variables=" ++ buildVariablesString vars

/-- VoyagerBaseURL (constants.go). -/
def VoyagerBaseURL : String := "https://www.linkedin.com/voyager/api/graphql"

/-- DefaultSearchQueryID (constants.go). -/
def DefaultSearchQueryID : String :=
  "voyagerSearchDashClusters.7cdf88d3366ad02cc5a3862fb9a24085"

/-! ### SearchProfiles argument construction and validation (search.go) -/

/-- AuthCredentials (config.go). -/
structure AuthCredentials where
  liAtCookie : String := ""
  csrfToken : String := ""
  jsessionid : String := ""
deriving DecidableEq

/-- Config (config.go): only the fields SearchProfiles consults. -/
structure Config where
  auth : AuthCredentials := {}
  userAgent : String := ""
deriving DecidableEq

/-- ProfileSearchArgs (models.go). -/
structure ProfileSearchArgs where
  keywords : String := ""
  networkFilters : List String := []
  start : Int := 0
  count : Int := 0
  xLiPageInstance : String := ""
  xLiTrack : String := ""
deriving DecidableEq

/-- The sentinel errors of errors.go that the request-construction prefix of
SearchProfiles can return. -/
inductive SearchError where
  | authMissing
  | keywordsMissing
deriving DecidableEq

/-- The query sub-object SearchProfiles builds (search.go): the network
filter list is appended only when non-empty, then the fixed resultType
parameter. -/
def searchQuerySubQueryOf (args : ProfileSearchArgs) : SearchQuerySubQuery :=
  { keywords := args.keywords
    flagshipSearchIntent := "SEARCH_SRP"
    queryParameters :=
      (if args.networkFilters.length > 0 then
        [{ key := "network", value := args.networkFilters }]
      else []) ++ [{ key := "resultType", value := ["PEOPLE"] }]
    includeFiltersInResponse := false }

/-- The SearchVariables SearchProfiles builds (search.go); Count is left at
its zero value there. -/
def searchVariablesOf (args : ProfileSearchArgs) : SearchVariables :=
  { start := args.start
    count := 0
    origin := "FACETED_SEARCH"
    query := searchQuerySubQueryOf args }

/-- The request-construction prefix of SearchProfiles (search.go): the auth
and keywords validation followed by the URL build. Everything after it is the
HTTP transport and response handling, outside this encoding model. -/
def searchProfilesRequestURL (cfg : Config) (args : ProfileSearchArgs) :
    Except SearchError String :=
  if cfg.auth.liAtCookie = "" || cfg.auth.csrfToken = "" then .error .authMissing
  else if args.keywords = "" then .error .keywordsMissing
  else .ok (buildGraphQLURL VoyagerBaseURL DefaultSearchQueryID (searchVariablesOf args))

/-! ### Concrete demonstration inputs -/

/-- A Position wire entity with a title and a date range. -/
def demoPositionA : GenericIncludedElement :=
  { type := EntityTypePosition
    entityUrn := "urn:li:fsd_position:1"
    companyName := "Acme"
    title := some "Engineer"
    dateRange := some { start := some { year := 2020, month := 1, day := 0 } } }

/-- A second, sparser Position wire entity. -/
def demoPositionB : GenericIncludedElement :=
  { type := EntityTypePosition
    entityUrn := "urn:li:fsd_position:2"
    companyName := "Globex" }

/-- The anchor Profile wire entity with both names present. -/
def demoAnchor : GenericIncludedElement :=
  { type := EntityTypeProfile
    entityUrn := "urn:li:fsd_profile:jd"
    publicIdentifier := "jane-doe"
    firstName := "Jane"
    lastName := "Doe"
    headline := "Engineer at Acme" }

/-- A payload with one anchor and two position entities around it. -/
def demoPayload : ProfileAPIResponse :=
  { included := [demoPositionA, demoAnchor, demoPositionB] }

/-- The entity demoPayload resolves to for jane-doe. -/
def demoProfile : LinkedInProfile :=
  (parseProfileFromAPIResponse demoPayload "jane-doe").toOption.getD default

/-- The entity demoPayload converts to (parse plus validation) for jane-doe. -/
def demoConverted : LinkedInProfile :=
  (convertAPIResponseToLinkedInProfile demoPayload "jane-doe").toOption.getD default

/-- A payload whose only profile entity carries a different identifier than
the one requested in the missing-anchor scenarios. -/
def demoOtherPayload : ProfileAPIResponse :=
  { included :=
      [demoPositionA,
       { type := EntityTypeProfile
         entityUrn := "urn:li:fsd_profile:se"
         publicIdentifier := "someone-else" }] }

/-- An anchor carrying a first name only. -/
def demoHalfAnchor : GenericIncludedElement :=
  { type := EntityTypeProfile
    entityUrn := "urn:li:fsd_profile:j"
    publicIdentifier := "jane"
    firstName := "Jane"
    lastName := "" }

/-- A payload whose anchor has a first name but no last name. -/
def demoHalfPayload : ProfileAPIResponse := { included := [demoHalfAnchor] }

/-- A payload holding two anchor profiles plus one position entity. -/
def demoTwoAnchorPayload : ProfileAPIResponse :=
  { included :=
      [{ type := EntityTypeProfile
         entityUrn := "urn:li:fsd_profile:a"
         publicIdentifier := "alice"
         firstName := "Alice" },
       demoPositionA,
       { type := EntityTypeProfile
         entityUrn := "urn:li:fsd_profile:b"
         publicIdentifier := "bob"
         firstName := "Bob" }] }

/-- The resolution of demoTwoAnchorPayload for alice. -/
def demoProfileAlice : LinkedInProfile :=
  (parseProfileFromAPIResponse demoTwoAnchorPayload "alice").toOption.getD default

/-- The resolution of demoTwoAnchorPayload for bob. -/
def demoProfileBob : LinkedInProfile :=
  (parseProfileFromAPIResponse demoTwoAnchorPayload "bob").toOption.getD default

/-- The argument set of the concrete encoder scenario in the spec. -/
def demoSearchArgs : ProfileSearchArgs :=
  { keywords := "data scientist", networkFilters := ["F", "O"], start := 0 }

/-- The variables fragment the encoder produces for demoSearchArgs. -/
def demoVariablesFragment : String := buildVariablesString (searchVariablesOf demoSearchArgs)

/-- A config whose auth fields are populated. -/
def demoConfig : Config := { auth := { liAtCookie := "cookie", csrfToken := "token" } }

/-! ### Shared lemmas -/

/-- An append-if loop over a list extends its accumulator with the image of
the filtered elements, in encounter order. -/
theorem foldl_append_eq_filter_map {α β : Type} (P : α → Bool) (f : α → β) (l : List α) :
    ∀ acc : List β,
      l.foldl (fun acc a => if P a then acc ++ [f a] else acc) acc =
        acc ++ (l.filter P).map f := by
  induction l with
  | nil => intro acc; simp
  | cons a t ih =>
    intro acc
    by_cases h : P a
    · simp [List.foldl_cons, h, List.filter_cons, ih]
    · simp [List.foldl_cons, h, List.filter_cons, ih]

/-- parseExperienceData is the in-order image of the Position entities. -/
theorem parseExperienceData_eq (p : ProfileAPIResponse) (urn : String) :
    parseExperienceData p urn =
      (p.included.filter (fun item => item.type == EntityTypePosition)).map
        experienceOfElement := by
  simpa [parseExperienceData] using
    foldl_append_eq_filter_map (fun item => item.type == EntityTypePosition)
      experienceOfElement p.included []

/-- parseEducationData is the in-order image of the Education entities. -/
theorem parseEducationData_eq (p : ProfileAPIResponse) (urn : String) :
    parseEducationData p urn =
      (p.included.filter (fun item => item.type == EntityTypeEducation)).map
        educationOfElement := by
  simpa [parseEducationData] using
    foldl_append_eq_filter_map (fun item => item.type == EntityTypeEducation)
      educationOfElement p.included []

/-- parseSkillsData is the in-order image of the skill-tagged entities. -/
theorem parseSkillsData_eq (p : ProfileAPIResponse) (urn : String) :
    parseSkillsData p urn =
      (p.included.filter (fun item => strContains item.type EntityTypeEndorsedSkill)).map
        skillOfElement := by
  simpa [parseSkillsData] using
    foldl_append_eq_filter_map (fun item => strContains item.type EntityTypeEndorsedSkill)
      skillOfElement p.included []

/-- A successful parse means an anchor was found and the result is its
assembled profile. -/
theorem parseProfile_ok_elim {p : ProfileAPIResponse} {pid : String} {prof : LinkedInProfile}
    (h : parseProfileFromAPIResponse p pid = .ok prof) :
    ∃ e, findAnchor p pid = some e ∧ prof = profileOfAnchor p pid e := by
  unfold parseProfileFromAPIResponse at h
  cases hf : findAnchor p pid with
  | none => rw [hf] at h; exact absurd h (by simp)
  | some e => rw [hf] at h; exact ⟨e, rfl, (Except.ok.inj h).symm⟩

/-! ### Claim theorems -/

/-- C1: for every wire payload, a successful resolve through
parseProfileFromAPIResponse yields an Experience collection that is exactly
the in-order image of the Position entities of the flat included array, so a
payload with N position entities yields length N with no reordering. -/
theorem c1_experience_roundtrip (p : ProfileAPIResponse) (pid : String)
    (prof : LinkedInProfile) (h : parseProfileFromAPIResponse p pid = .ok prof) :
    prof.experience =
        (p.included.filter (fun item => item.type == EntityTypePosition)).map
          experienceOfElement
      ∧ prof.experience.length =
        (p.included.filter (fun item => item.type == EntityTypePosition)).length := by
  obtain ⟨e, _, rfl⟩ := parseProfile_ok_elim h
  have hexp : (profileOfAnchor p pid e).experience = parseExperienceData p e.entityUrn := rfl
  rw [hexp, parseExperienceData_eq]
  exact ⟨rfl, List.length_map _ _⟩

/-- C1 witness: the demo payload with two position entities resolves to an
experience collection of length two, in included order. -/
theorem c1_experience_roundtrip_witness :
    demoProfile.experience =
        (demoPayload.included.filter (fun item => item.type == EntityTypePosition)).map
          experienceOfElement
      ∧ demoProfile.experience.length = 2 := by
  have h := c1_experience_roundtrip demoPayload "jane-doe" demoProfile rfl
  exact ⟨h.1, by rw [h.2]; rfl⟩

/-- C2: a payload whose included array holds no Profile-typed entity with the
requested public identifier makes parseProfileFromAPIResponse return the
profile-not-found error; no domain entity is produced. -/
theorem c2_missing_anchor (p : ProfileAPIResponse) (pid : String)
    (h : ∀ item ∈ p.included, ¬(item.type = EntityTypeProfile ∧ item.publicIdentifier = pid)) :
    parseProfileFromAPIResponse p pid = .error (.profileNotFound pid) := by
  have hf : findAnchor p pid = none := by
    apply List.find?_eq_none.mpr
    intro item hmem
    simp only [Bool.and_eq_true, beq_iff_eq]
    intro hcon
    exact h item hmem hcon
  unfold parseProfileFromAPIResponse
  rw [hf]

/-- C2 witness: requesting jane-doe from a payload whose only profile entity
is someone-else yields the not-found error. -/
theorem c2_missing_anchor_witness :
    parseProfileFromAPIResponse demoOtherPayload "jane-doe" =
      .error (.profileNotFound "jane-doe") :=
  c2_missing_anchor demoOtherPayload "jane-doe" (by decide)

/-- C5: FlexibleText decoding maps the bare string form, the wrapped object
form and JSON null to "Engineer", "Engineer" and "" without a decode error. -/
theorem c5_flexible_text_decode :
    flexibleTextUnmarshal (.str "Engineer") = some "Engineer"
      ∧ flexibleTextUnmarshal (.obj [("text", .str "Engineer")]) = some "Engineer"
      ∧ flexibleTextUnmarshal .null = some "" :=
  ⟨rfl, rfl, rfl⟩

/-- C6 counterexample: a present value of the wrong shape for FlexibleText —
the empty JSON object — is not treated as an absent field (empty string);
UnmarshalJSON returns its cannot-unmarshal error (modelled as none), which in
Go propagates out of the enclosing json.Unmarshal, so the surrounding resolve
call fails with a parse error instead of succeeding. -/
theorem c6_wrong_shape_counterexample :
    flexibleTextUnmarshal (.obj []) = none
      ∧ flexibleTextUnmarshal (.obj []) ≠ some "" := by
  refine ⟨rfl, ?_⟩
  intro hcon
  rw [show flexibleTextUnmarshal (.obj []) = none from rfl] at hcon
  exact Option.noConfusion hcon

/-- C6 as amended: a FlexibleText value that is neither a bare string, nor
null, nor an object whose decode yields a non-empty text, makes
UnmarshalJSON return a decode error rather than an empty string; in the
package this aborts the enclosing payload decode and the resolve call. -/
theorem c6_wrong_shape_is_decode_error (j : JsonVal)
    (hstr : ∀ s, j ≠ .str s) (hnull : j ≠ .null)
    (htext : ∀ t, unmarshalTextObj j = some t → t = "") :
    flexibleTextUnmarshal j = none := by
  cases j with
  | null => exact absurd rfl hnull
  | str s => exact absurd rfl (hstr s)
  | bool b => rfl
  | num lit => rfl
  | arr elems => rfl
  | obj fields =>
    unfold flexibleTextUnmarshal
    cases hto : unmarshalTextObj (.obj fields) with
    | none => simp [flexibleTextFallback, unmarshalGoString]
    | some t =>
      have ht : t = "" := htext t hto
      subst ht
      simp [flexibleTextFallback, unmarshalGoString]

/-- C6 witness: an object with only an unrelated member decodes to an error. -/
theorem c6_wrong_shape_witness :
    flexibleTextUnmarshal (.obj [("other", .bool true)]) = none := by
  apply c6_wrong_shape_is_decode_error
  · intro s h; exact JsonVal.noConfusion h
  · intro h; exact JsonVal.noConfusion h
  · intro t h
    have : some "" = some t := by
      rw [← h]; rfl
    exact (Option.some.inj this).symm

/-- C8 counterexample: an anchor with a first name and an empty last name is
not the both-names-present case, yet the resolver still synthesizes a display
name from the single source: the resolved FullName is "Jane", not empty,
because parseProfileFromAPIResponse sets it to
TrimSpace(firstName + " " + lastName) unconditionally. -/
theorem c8_single_name_counterexample :
    (parseProfileFromAPIResponse demoHalfPayload "jane").toOption.map
        (fun prof => prof.fullName) = some "Jane"
      ∧ "Jane" ≠ "" := by
  exact ⟨rfl, by decide⟩

/-- C8 as amended: every successful resolve sets FullName to
TrimSpace(firstName + " " + lastName) of the anchor, unconditionally; with
both names non-empty and free of surrounding whitespace this is
firstName + " " + lastName (the Jane Doe scenario), and with a single
non-empty name the resolver still produces that name as FullName. -/
theorem c8_fullname_rule (p : ProfileAPIResponse) (pid : String)
    (prof : LinkedInProfile) (h : parseProfileFromAPIResponse p pid = .ok prof) :
    prof.fullName = goTrimSpace (prof.firstName ++ " " ++ prof.lastName) := by
  obtain ⟨e, _, rfl⟩ := parseProfile_ok_elim h
  rfl

/-- C8 witness: the Jane Doe anchor resolves with FullName "Jane Doe",
matching the trim rule. -/
theorem c8_fullname_rule_witness :
    demoProfile.fullName = goTrimSpace (demoProfile.firstName ++ " " ++ demoProfile.lastName)
      ∧ demoProfile.fullName = "Jane Doe" :=
  ⟨c8_fullname_rule demoPayload "jane-doe" demoProfile rfl, rfl⟩

/-- C10: the anchor URN argument of parseExperienceData, parseEducationData
and parseSkillsData is never consulted, so the resolved collections are
identical whichever profile of the payload is requested: entities belonging
to other profiles in the same payload are attached to the requested profile
too. -/
theorem c10_ownership_ignored :
    (∀ (p : ProfileAPIResponse) (u v : String), parseExperienceData p u = parseExperienceData p v)
      ∧ (∀ (p : ProfileAPIResponse) (u v : String),
          parseEducationData p u = parseEducationData p v)
      ∧ (∀ (p : ProfileAPIResponse) (u v : String), parseSkillsData p u = parseSkillsData p v)
      ∧ (∀ (p : ProfileAPIResponse) (pid1 pid2 : String) (prof1 prof2 : LinkedInProfile),
          parseProfileFromAPIResponse p pid1 = .ok prof1 →
          parseProfileFromAPIResponse p pid2 = .ok prof2 →
          prof1.experience = prof2.experience ∧ prof1.education = prof2.education
            ∧ prof1.skills = prof2.skills) := by
  refine ⟨fun p u v => rfl, fun p u v => rfl, fun p u v => rfl, ?_⟩
  intro p pid1 pid2 prof1 prof2 h1 h2
  obtain ⟨e1, _, rfl⟩ := parseProfile_ok_elim h1
  obtain ⟨e2, _, rfl⟩ := parseProfile_ok_elim h2
  exact ⟨rfl, rfl, rfl⟩

/-- C10 witness: in a payload with two anchors and one position entity, alice
and bob resolve to the same experience, education and skills collections, and
the position is attached to both. -/
theorem c10_ownership_ignored_witness :
    (demoProfileAlice.experience = demoProfileBob.experience
        ∧ demoProfileAlice.education = demoProfileBob.education
        ∧ demoProfileAlice.skills = demoProfileBob.skills)
      ∧ demoProfileAlice.experience.length = 1 := by
  refine ⟨c10_ownership_ignored.2.2.2 demoTwoAnchorPayload "alice" "bob"
    demoProfileAlice demoProfileBob rfl rfl, rfl⟩

set_option maxRecDepth 100000

/-- C3 counterexample: for the argument set {keywords "data scientist",
network filters [F,O], start 0}, the encoder's variables fragment contains
neither keywords:data%20scientist (Go url.QueryEscape writes the space as a
plus sign) nor a contiguous network:List(F,O) (the filter is emitted as the
pair (key:network,value:List(F,O))). -/
theorem c3_percent_encoding_counterexample :
    strContains demoVariablesFragment "keywords:data%20scientist" = false
      ∧ strContains demoVariablesFragment "network:List(F,O)" = false :=
  ⟨rfl, rfl⟩

/-- C3 as amended: the fragment built by buildVariablesString for that
argument set contains keywords:data+scientist, the network filter as
(key:network,value:List(F,O)), and start:0. -/
theorem c3_fragment_contents :
    strContains demoVariablesFragment "keywords:data+scientist" = true
      ∧ strContains demoVariablesFragment "(key:network,value:List(F,O))" = true
      ∧ strContains demoVariablesFragment "start:0" = true :=
  ⟨rfl, rfl, rfl⟩

/-- C7: with populated auth credentials, the request-construction prefix of
SearchProfiles fails with the keywords-missing sentinel exactly when Keywords
is empty; with non-empty keywords it always reaches the URL build whatever
the optional arguments hold, and an empty network filter list is omitted from
the built query parameters rather than encoded. -/
theorem c7_keywords_validation (cfg : Config) (args : ProfileSearchArgs)
    (hli : cfg.auth.liAtCookie ≠ "") (hcsrf : cfg.auth.csrfToken ≠ "") :
    (searchProfilesRequestURL cfg args = .error .keywordsMissing ↔ args.keywords = "")
      ∧ (args.keywords ≠ "" →
          searchProfilesRequestURL cfg args =
            .ok (buildGraphQLURL VoyagerBaseURL DefaultSearchQueryID (searchVariablesOf args)))
      ∧ (args.networkFilters = [] →
          (searchQuerySubQueryOf args).queryParameters =
            [{ key := "resultType", value := ["PEOPLE"] }]) := by
  unfold searchProfilesRequestURL
  rw [if_neg (by simp [hli, hcsrf])]
  refine ⟨?_, ?_, fun hnf => by simp [searchQuerySubQueryOf, hnf]⟩
  · by_cases hk : args.keywords = ""
    · rw [if_pos hk]; simp [hk]
    · rw [if_neg hk]; simp [hk]
  · intro hk; rw [if_neg hk]

/-- C7 witness: the demo credentials and the data-scientist argument set pass
validation and build the URL; their filter list is non-empty, and the
all-empty argument set fails with the keywords-missing sentinel. -/
theorem c7_keywords_validation_witness :
    (searchProfilesRequestURL demoConfig demoSearchArgs = .error .keywordsMissing
        ↔ demoSearchArgs.keywords = "")
      ∧ searchProfilesRequestURL demoConfig demoSearchArgs =
          .ok (buildGraphQLURL VoyagerBaseURL DefaultSearchQueryID
            (searchVariablesOf demoSearchArgs))
      ∧ searchProfilesRequestURL demoConfig {} = .error .keywordsMissing := by
  have h := c7_keywords_validation demoConfig demoSearchArgs (by decide) (by decide)
  have h0 := c7_keywords_validation demoConfig {} (by decide) (by decide)
  exact ⟨h.1, h.2.1 (by decide), h0.1.mpr rfl⟩

/-- A successful validation pass keeps the public identifier, which the check
itself guarantees non-empty. -/
theorem validateProfileData_ok {q prof : LinkedInProfile}
    (h : validateProfileData q = .ok prof) :
    prof.publicIdentifier = q.publicIdentifier ∧ q.publicIdentifier ≠ "" := by
  unfold validateProfileData at h
  by_cases hq : q.publicIdentifier = ""
  · rw [if_pos hq] at h; exact absurd h (by simp)
  · rw [if_neg hq] at h
    refine ⟨?_, hq⟩
    have := Except.ok.inj h
    rw [← this]

/-- C9: validateProfileData rejects an empty primary identifier, so every
domain entity coming out of a successful convertAPIResponseToLinkedInProfile
or ParseFromJSON carries a non-empty PublicIdentifier. -/
theorem c9_identifier_invariant :
    (∀ prof : LinkedInProfile, prof.publicIdentifier = "" →
        validateProfileData prof = .error .publicIdentifierRequired)
      ∧ (∀ (p : ProfileAPIResponse) (pid : String) (prof : LinkedInProfile),
          convertAPIResponseToLinkedInProfile p pid = .ok prof → prof.publicIdentifier ≠ "")
      ∧ (∀ (p : ProfileAPIResponse) (prof : LinkedInProfile),
          ParseFromJSON p = .ok prof → prof.publicIdentifier ≠ "") := by
  refine ⟨fun prof hempty => by simp [validateProfileData, hempty], ?_, ?_⟩
  · intro p pid prof h
    unfold convertAPIResponseToLinkedInProfile at h
    cases hp : parseProfileFromAPIResponse p pid with
    | error e => rw [hp] at h; exact absurd h (by simp [Bind.bind, Except.bind])
    | ok q =>
      rw [hp] at h
      have hv : validateProfileData q = .ok prof := by
        simpa [Bind.bind, Except.bind] using h
      have hq := validateProfileData_ok hv
      rw [hq.1]; exact hq.2
  · intro p prof h
    unfold ParseFromJSON at h
    by_cases hpid : extractPublicIdentifierFromResponse p = ""
    · rw [if_pos hpid] at h; exact absurd h (by simp)
    · rw [if_neg hpid] at h
      cases hp : parseProfileFromAPIResponse p (extractPublicIdentifierFromResponse p) with
      | error e => rw [hp] at h; exact absurd h (by simp [Bind.bind, Except.bind])
      | ok q =>
        rw [hp] at h
        have hv : validateProfileData q = .ok prof := by
          simpa [Bind.bind, Except.bind] using h
        have hq := validateProfileData_ok hv
        rw [hq.1]; exact hq.2

/-- C9 witness: the converted demo profile carries jane-doe, non-empty. -/
theorem c9_identifier_invariant_witness : demoConverted.publicIdentifier ≠ "" :=
  c9_identifier_invariant.2.1 demoPayload "jane-doe" demoConverted rfl

/-- Occurrence decompositions survive prepending. -/
theorem occurs_append_left (t : String) {s mid : String}
    (h : ∃ pre post, s = pre ++ mid ++ post) :
    ∃ pre post, t ++ s = pre ++ mid ++ post := by
  obtain ⟨pre, post, rfl⟩ := h
  exact ⟨t ++ pre, post, by simp [String.append_assoc]⟩

/-- Occurrence decompositions survive appending. -/
theorem occurs_append_right (t : String) {s mid : String}
    (h : ∃ pre post, s = pre ++ mid ++ post) :
    ∃ pre post, s ++ t = pre ++ mid ++ post := by
  obtain ⟨pre, post, rfl⟩ := h
  exact ⟨pre, post ++ t, by simp [String.append_assoc]⟩

/-- A string occurs in itself, with empty surroundings. -/
theorem occurs_self (mid : String) : ∃ pre post, mid = pre ++ mid ++ post :=
  ⟨"", "", by simp⟩

/-- A list is a Boolean prefix of itself extended by anything. -/
theorem isPrefixOf_append (needle rest : List Char) :
    needle.isPrefixOf (needle ++ rest) = true := by
  induction needle with
  | nil => simp [List.isPrefixOf]
  | cons c cs ih => simp [List.isPrefixOf, ih]

/-- The infix scan finds the needle wherever the haystack decomposes
around it. -/
theorem listInfixB_append (needle post : List Char) :
    ∀ pre : List Char, listInfixB needle (pre ++ (needle ++ post)) = true := by
  intro pre
  induction pre with
  | nil =>
    cases hn : needle with
    | nil => cases post <;> simp [listInfixB, List.isPrefixOf]
    | cons c cs =>
      have := isPrefixOf_append (c :: cs) post
      simp only [List.nil_append, List.cons_append] at this ⊢
      simp [listInfixB, this]
  | cons c rest ih => simp [listInfixB, ih]

/-- strContains holds on every explicit occurrence decomposition. -/
theorem strContains_of_parts (pre mid post : String) :
    strContains (pre ++ mid ++ post) mid = true := by
  unfold strContains
  rw [String.data_append, String.data_append, List.append_assoc]
  exact listInfixB_append mid.data post.data pre.data

/-- With a non-empty filter list, the query parameters SearchProfiles builds
are the network filter followed by resultType. -/
theorem searchQueryParameters_of_filters (args : ProfileSearchArgs)
    (h : args.networkFilters ≠ []) :
    (searchQuerySubQueryOf args).queryParameters =
      [{ key := "network", value := args.networkFilters },
       { key := "resultType", value := ["PEOPLE"] }] := by
  have hlen : args.networkFilters.length > 0 := List.length_pos.mpr h
  simp [searchQuerySubQueryOf, hlen]

/-- String.intercalate over exactly two pieces. -/
theorem intercalate_pair (sep a b : String) :
    String.intercalate sep [a, b] = a ++ sep ++ b := by
  simp [String.intercalate, String.intercalate.go]

/-- C4: whenever the argument set carries a non-empty filter list, the
variables fragment of the encoded request contains the substring
List(v1,...,vn) of exactly the filter values, joined by commas with no
escaping, in input order. -/
theorem c4_filter_list_encoding (args : ProfileSearchArgs)
    (h : args.networkFilters ≠ []) :
    (∃ pre post,
        buildVariablesString (searchVariablesOf args) =
          pre ++ ("List(" ++ String.intercalate "," args.networkFilters ++ ")") ++ post)
      ∧ strContains (buildVariablesString (searchVariablesOf args))
          ("List(" ++ String.intercalate "," args.networkFilters ++ ")") = true := by
  have hocc : ∃ pre post,
      buildVariablesString (searchVariablesOf args) =
        pre ++ ("List(" ++ String.intercalate "," args.networkFilters ++ ")") ++ post := by
    simp only [buildVariablesString, searchVariablesOf, stringSliceToString,
      searchQueryParameters_of_filters args h, List.map_cons, List.map_nil,
      intercalate_pair]
    apply occurs_append_right
    apply occurs_append_right
    apply occurs_append_right
    apply occurs_append_left
    apply occurs_append_right
    apply occurs_append_left
    apply occurs_append_right
    apply occurs_append_right
    simp only [queryParamFragment, stringSliceToString]
    apply occurs_append_right
    apply occurs_append_left
    exact occurs_self _
  refine ⟨hocc, ?_⟩
  obtain ⟨pre, post, hdec⟩ := hocc
  rw [hdec]
  exact strContains_of_parts _ _ _

/-- C4 witness: for the [F,O] filter list the encoder output contains
List(F,O) — two comma-separated entries in input order. -/
theorem c4_filter_list_encoding_witness :
    strContains (buildVariablesString (searchVariablesOf demoSearchArgs))
        ("List(" ++ String.intercalate "," demoSearchArgs.networkFilters ++ ")") = true
      ∧ "List(" ++ String.intercalate "," demoSearchArgs.networkFilters ++ ")" = "List(F,O)" :=
  ⟨(c4_filter_list_encoding demoSearchArgs (by decide)).2, rfl⟩
